import Mathlib

/-!
Verification of the metered usage billing engine of the `better-auth` Stripe
package (spec.md sections 3, 4, 6, 7) against a shallow embedding of the code.

The repository snapshot under analysis ships only the test suites
(`packages/stripe/test/metered-billing.test.ts`,
`packages/stripe/test/utils.test.ts`) for this subsystem; the implementation
module `packages/stripe/src/utils.ts` and the route handlers in
`packages/stripe/src/index.ts` are not part of the snapshot.  The definitions
below therefore model the missing implementation from the spec, with the test
suites fixing every concrete behaviour they observe (payload field names,
conversion of values to strings, TTL length, status codes).  Each such
definition carries a doc comment starting with `Modelled from the spec:`.
-/

/-- A configured meter (spec section 3, `Meter`): keyed by `eventName`. -/
structure Meter where
  eventName : String
  displayName : Option String := none
deriving DecidableEq, Repr

/-- A usage event as received by the ingestion endpoint (spec section 3,
`UsageEvent`): `value` is modelled as an integer, `timestamp` as an optional
ISO-8601 string, `identifier` as an optional idempotency token. -/
structure UsageEvent where
  meter : String
  value : Int
  timestamp : Option String := none
  identifier : Option String := none
deriving DecidableEq, Repr

/-- The per-event outcome of ingestion (spec section 3, `UsageEventResult`):
`error` is `none` exactly when the field is omitted from the JSON result. -/
structure UsageEventResult where
  meter : String
  success : Bool
  error : Option String := none
deriving DecidableEq, Repr

/-- One call to the provider's event-ingestion API
(`billing.meterEvents.create`).  The JS object sent over the wire is modelled
as a structure, except for `payload`, whose keys are data (the test suite
asserts on them), hence a key-value list. -/
structure MeterEventCall where
  event_name : String
  payload : List (String × String)
  timestamp : Option Int
  identifier : Option String
deriving DecidableEq, Repr

/-- The provider's reaction to one event-ingestion call: success, or a failure
carrying an optional error message. -/
inductive ProviderResp where
  | ok : ProviderResp
  | err : Option String → ProviderResp
deriving DecidableEq, Repr

/-- Errors of the public API surface relevant to the claims (spec section 7). -/
inductive ApiError where
  | unauthenticated : ApiError
  | meterNotRegistered : ApiError
deriving DecidableEq, Repr

/-- HTTP status of each API error class (spec sections 6 and 7). -/
def ApiError.status : ApiError → Nat
  | .unauthenticated => 401
  | .meterNotRegistered => 400

/-- Modelled from the spec: `validateEventName` of the missing
`packages/stripe/src/utils.ts` — "validate `event.meter` is a configured meter
name (else produce a failed result with a descriptive error)".  The test suite
(`utils.test.ts` 38-57) fixes that it returns the name when registered and
throws both for an unknown name and when no meters are configured. -/
def validateEventName (meters : Option (List Meter)) (name : String) :
    Except String String :=
  match meters with
  | none => .error "No meters are configured for usage ingestion"
  | some ms =>
    if name ∈ ms.map Meter.eventName then .ok name
    else .error ("Meter " ++ name ++ " is not a configured meter name")

/-- Generic failure message used when the provider supplies no error message
(spec section 4.4: "a generic one if none is provided"). -/
def genericIngestError : String := "Failed to ingest usage event"

/-- Number of days from 1970-01-01 to the civil date `y-m-d` (proleptic
Gregorian), the days-from-civil algorithm; used to model JavaScript
`new Date(iso).getTime()` for UTC timestamps. -/
def daysFromCivil (y m d : Nat) : Int :=
  let y2 := if m ≤ 2 then y - 1 else y
  let era := y2 / 400
  let yoe := y2 - era * 400
  let mp := (m + 9) % 12
  let doy := (153 * mp + 2) / 5 + d - 1
  let doe := yoe * 365 + yoe / 4 - yoe / 100 + doy
  ((era * 146097 + doe : Nat) : Int) - 719468

/-- Split a character list on a separator character (structurally recursive so
that the kernel can evaluate it on literals). -/
def splitChar (c : Char) : List Char → List (List Char)
  | [] => [[]]
  | x :: xs =>
    match splitChar c xs with
    | [] => if x = c then [[], []] else [[x]]
    | g :: gs => if x = c then [] :: g :: gs else (x :: g) :: gs

/-- Value of a decimal digit character, if it is one. -/
def charDigit (ch : Char) : Option Nat :=
  if '0' ≤ ch ∧ ch ≤ '9' then some (ch.toNat - '0'.toNat) else none

/-- Decimal value of a nonempty list of digit characters. -/
def digitsVal (l : List Char) : Option Nat :=
  if l = [] then none
  else
    l.foldl
      (fun acc ch =>
        match acc, charDigit ch with
        | some a, some d => some (a * 10 + d)
        | _, _ => none)
      (some 0)

/-- Modelled from the spec: conversion of a UTC ISO-8601 timestamp string
`YYYY-MM-DDTHH:MM:SSZ` to Unix epoch seconds — the
`Math.floor(new Date(ts).getTime() / 1000)` conversion the ingestion route
applies to `event.timestamp` (spec section 4.4; `metered-billing.test.ts`
247-271). -/
def isoToEpochSeconds (s : String) : Option Int :=
  match splitChar 'T' s.toList with
  | [date, time] =>
    match splitChar '-' date with
    | [ys, ms, ds] =>
      if time.getLast? = some 'Z' then
        match splitChar ':' time.dropLast with
        | [hs, mins, secs] =>
          match digitsVal ys, digitsVal ms, digitsVal ds,
              digitsVal hs, digitsVal mins, digitsVal secs with
          | some y, some mo, some d, some h, some mi, some sec =>
            some (daysFromCivil y mo d * 86400 +
              ((h * 3600 + mi * 60 + sec : Nat) : Int))
          | _, _, _, _, _, _ => none
        | _ => none
      else none
    | _ => none
  | _ => none

/-- Modelled from the spec: the provider call built for one valid event (spec
section 4.4 step 2).  The payload keys and the string conversion of `value`
are fixed by the test expectation at `metered-billing.test.ts` 163-171:
`payload: \x7b stripe_customer_id, value: "10" \x7d`. -/
def mkMeterEventCall (custId : String) (e : UsageEvent) : MeterEventCall :=
  { event_name := e.meter
    payload := [("stripe_customer_id", custId), ("value", toString e.value)]
    timestamp := e.timestamp.bind isoToEpochSeconds
    identifier := e.identifier }

/-- The per-event outcome (spec section 4.4 steps 2-3): a validation failure
yields a failed result without touching the provider; otherwise the provider's
response at this event's batch position decides success or failure, a missing
provider message being replaced by the generic one. -/
def eventOutcome (meters : Option (List Meter)) (respond : Nat → ProviderResp)
    (k : Nat) (e : UsageEvent) : UsageEventResult :=
  match validateEventName meters e.meter with
  | .error msg => { meter := e.meter, success := false, error := some msg }
  | .ok _ =>
    match respond k with
    | .ok => { meter := e.meter, success := true, error := none }
    | .err m =>
      { meter := e.meter, success := false,
        error := some (m.getD genericIngestError) }

/-- Modelled from the spec: the per-batch loop of the ingestion route — each
event processed independently, results collected in input order, and a
provider call emitted exactly for the events that pass meter validation.
`k` is the batch position of the first event of `es`; `respond` gives the
provider's reaction to each event's call, indexed by batch position. -/
def ingestGo (meters : Option (List Meter)) (custId : String)
    (respond : Nat → ProviderResp) :
    Nat → List UsageEvent → List UsageEventResult × List MeterEventCall
  | _, [] => ([], [])
  | k, e :: rest =>
    let tail := ingestGo meters custId respond (k + 1) rest
    ( eventOutcome meters respond k e :: tail.1
    , (match validateEventName meters e.meter with
       | .ok _ => [mkMeterEventCall custId e]
       | .error _ => []) ++ tail.2 )

/-- Everything observable about one ingestion request: the HTTP-level
response, the provider calls made, and the number of database accesses
(customer resolution happens once per authenticated batch, spec section 4.4
step 1). -/
structure IngestOutcome where
  response : Except ApiError (List UsageEventResult)
  calls : List MeterEventCall
  dbAccesses : Nat
deriving Repr

/-- Modelled from the spec: the `stripeIngestUsage` route handler of the
missing `packages/stripe/src/index.ts` (spec section 4.4).  `session` is the
authenticated caller (checked first, before any provider or database access);
`custId` is the billing customer id the batch resolves once. -/
def stripeIngestUsage (meters : Option (List Meter)) (session : Option String)
    (custId : String) (respond : Nat → ProviderResp)
    (events : List UsageEvent) : IngestOutcome :=
  match session with
  | none => { response := .error .unauthenticated, calls := [], dbAccesses := 0 }
  | some _ =>
    let r := ingestGo meters custId respond 0 events
    { response := .ok r.1, calls := r.2, dbAccesses := 1 }

/-- Fixed time-to-live of the meter-id cache: 5 minutes, in milliseconds
(spec section 4.1; `utils.test.ts` 200-205 advances fake timers by
`5 * 60 * 1000 + 1` to expire it). -/
def METER_CACHE_TTL_MS : Nat := 5 * 60 * 1000

/-- The cache entry kept by the meter-id resolver (spec section 3,
`MeterIdCacheEntry`): the full name-to-id mapping plus the time it was
fetched. -/
structure MeterIdCacheEntry where
  mapping : List (String × String)
  fetchedAt : Nat
deriving DecidableEq, Repr

/-- Modelled from the spec: one call of the resolver closure returned by
`createMeterIdResolver` of the missing `packages/stripe/src/utils.ts` (spec
section 4.1).  `listing` is the name-to-id mapping a fresh provider listing
would produce at this moment; the result is the returned mapping, the cache
after the call, and whether the provider listing was contacted. -/
def meterIdResolverStep (listing : List (String × String)) (now : Nat)
    (cache : Option MeterIdCacheEntry) :
    List (String × String) × Option MeterIdCacheEntry × Bool :=
  match cache with
  | some c =>
    if now - c.fetchedAt < METER_CACHE_TTL_MS then (c.mapping, some c, false)
    else (listing, some { mapping := listing, fetchedAt := now }, true)
  | none => (listing, some { mapping := listing, fetchedAt := now }, true)

/-- Number of provider meter-listing calls performed by a sequence of resolver
calls at the given times, starting from the given cache state. -/
def meterListingCalls (listing : List (String × String)) :
    Option MeterIdCacheEntry → List Nat → Nat
  | _, [] => 0
  | cache, t :: ts =>
    let r := meterIdResolverStep listing t cache
    (if r.2.2 then 1 else 0) + meterListingCalls listing r.2.1 ts

/-- One raw aggregated usage summary as returned by the provider's
`listEventSummaries` (spec section 6). -/
structure RawSummary where
  id : String
  aggregated_value : Int
  start_time : Int
  end_time : Int
deriving DecidableEq, Repr

/-- One page of raw summaries together with the provider's page-continuation
flag. -/
structure SummaryPage where
  data : List RawSummary
  has_more : Bool
deriving DecidableEq, Repr

/-- A normalized usage summary (spec section 3, `UsageSummary`); the
JavaScript `Date` values are modelled by their epoch-millisecond value. -/
structure UsageSummary where
  id : String
  aggregatedValue : Int
  startTime : Int
  endTime : Int
deriving DecidableEq, Repr

/-- The page-level result of a usage query (spec section 3). -/
structure UsagePage where
  data : List UsageSummary
  hasMore : Bool
  lastId : Option String
deriving DecidableEq, Repr

/-- The parameters of a usage query (spec section 4.5). -/
structure UsageQueryParams where
  meter : String
  limit : Option Nat := none
  startingAfter : Option String := none
  groupingWindow : Option String := none
deriving DecidableEq, Repr

/-- The request a usage query sends to the provider's event-summary listing
(spec section 4.5; `metered-billing.test.ts` 348-355 fixes the forwarded
parameter names). -/
structure SummariesRequest where
  meterId : String
  customer : String
  limit : Option Nat
  starting_after : Option String
  value_grouping_window : Option String
deriving DecidableEq, Repr

/-- Modelled from the spec: normalization of one provider summary page (spec
section 4.5) — field renaming, second-to-millisecond `Date` conversion, and
the pagination cursor `lastId` set from the last item when more pages
remain. -/
def formatUsagePage (p : SummaryPage) : UsagePage :=
  { data := p.data.map (fun r =>
      { id := r.id, aggregatedValue := r.aggregated_value,
        startTime := r.start_time * 1000, endTime := r.end_time * 1000 })
    hasMore := p.has_more
    lastId := if p.has_more then p.data.getLast?.map RawSummary.id else none }

/-- Modelled from the spec: the `subscription.usage` route handler of the
missing `packages/stripe/src/index.ts` (spec section 4.5).  `session` is the
authenticated caller; `liveMeters` is the name-to-id mapping the meter-id
resolver returns from the provider's live listing; `custId` is the resolved
billing customer; `fetch` is the provider's event-summary listing. -/
def subscriptionUsage (session : Option String)
    (liveMeters : List (String × String)) (custId : String)
    (fetch : SummariesRequest → SummaryPage) (params : UsageQueryParams) :
    Except ApiError UsagePage :=
  match session with
  | none => .error .unauthenticated
  | some _ =>
    match liveMeters.lookup params.meter with
    | none => .error .meterNotRegistered
    | some mid =>
      .ok (formatUsagePage (fetch
        { meterId := mid, customer := custId, limit := params.limit,
          starting_after := params.startingAfter,
          value_grouping_window := params.groupingWindow }))

/-- A Stripe price as it appears on a subscription line item. -/
structure Price where
  id : String
  lookup_key : Option String
deriving DecidableEq, Repr

/-- A subscription line item; only its price is relevant to plan matching. -/
structure SubscriptionItem where
  price : Price
deriving DecidableEq, Repr

/-- A configured plan (spec section 3, `Plan`): matched by exact equality on
`priceId` or `lookupKey`. -/
structure Plan where
  name : String
  priceId : Option String := none
  lookupKey : Option String := none
deriving DecidableEq, Repr

/-- The result of plan resolution: a line item together with the catalog plan
matched to it, if any. -/
structure PlanItem where
  item : SubscriptionItem
  plan : Option Plan
deriving DecidableEq, Repr

/-- Modelled from the spec: matching of one line item against the plan catalog
(spec section 4.3) — "by price identifier first, then lookup key", exact
string equality, first matching plan in catalog order.  A line item without a
lookup key never matches a plan by lookup key. -/
def findPlanForItem (plans : List Plan) (it : SubscriptionItem) : Option Plan :=
  match plans.find? (fun p => p.priceId == some it.price.id) with
  | some p => some p
  | none =>
    match it.price.lookup_key with
    | some lk => plans.find? (fun p => p.lookupKey == some lk)
    | none => none

/-- Scan of a multi-item list in order for the first item matching a
configured plan (spec section 4.3). -/
def firstPlanItem (plans : List Plan) : List SubscriptionItem → Option PlanItem
  | [] => none
  | it :: rest =>
    match findPlanForItem plans it with
    | some p => some { item := it, plan := some p }
    | none => firstPlanItem plans rest

/-- Modelled from the spec: `resolvePlanItem` of the missing
`packages/stripe/src/utils.ts` (spec section 4.3): a single line item is
always returned, matched or not; with several line items the first one
matching a configured plan is returned, or nothing when none matches. -/
def resolvePlanItem (plans : List Plan) (items : List SubscriptionItem) :
    Option PlanItem :=
  match items with
  | [] => none
  | [it] => some { item := it, plan := findPlanForItem plans it }
  | _ => firstPlanItem plans items

example :
    isoToEpochSeconds "2025-06-15T12:00:00Z" = some 1749988800 := by decide

theorem validateEventName_ok {meters : Option (List Meter)} {n v : String}
    (h : validateEventName meters n = .ok v) : v = n := by
  unfold validateEventName at h
  cases meters with
  | none => simp at h
  | some ms =>
    by_cases hm : n ∈ ms.map Meter.eventName
    · simp [hm] at h
      exact h.symm
    · simp [hm] at h

theorem eventOutcome_meter (meters : Option (List Meter))
    (respond : Nat → ProviderResp) (k : Nat) (e : UsageEvent) :
    (eventOutcome meters respond k e).meter = e.meter := by
  unfold eventOutcome
  split
  · rfl
  · split <;> rfl

theorem eventOutcome_congr {meters : Option (List Meter)}
    {respond respond' : Nat → ProviderResp} {k : Nat}
    (h : respond k = respond' k) (e : UsageEvent) :
    eventOutcome meters respond k e = eventOutcome meters respond' k e := by
  unfold eventOutcome
  rw [h]

theorem ingestGo_fst_length (meters : Option (List Meter)) (custId : String)
    (respond : Nat → ProviderResp) :
    ∀ (es : List UsageEvent) (k : Nat),
      ((ingestGo meters custId respond k es).1).length = es.length := by
  intro es
  induction es with
  | nil => intro k; rfl
  | cons e rest ih =>
    intro k
    simpa [ingestGo] using ih (k + 1)

theorem ingestGo_fst_getElem? (meters : Option (List Meter)) (custId : String)
    (respond : Nat → ProviderResp) :
    ∀ (es : List UsageEvent) (k j : Nat),
      ((ingestGo meters custId respond k es).1)[j]? =
        (es[j]?).map (fun e => eventOutcome meters respond (k + j) e) := by
  intro es
  induction es with
  | nil => intro k j; simp [ingestGo]
  | cons e rest ih =>
    intro k j
    cases j with
    | zero => simp [ingestGo]
    | succ j =>
      have hadd : k + 1 + j = k + (j + 1) := by omega
      have h := ih (k + 1) j
      simp only [ingestGo, List.getElem?_cons_succ]
      rw [h, hadd]

theorem ingestGo_calls_sound (meters : Option (List Meter)) (custId : String)
    (respond : Nat → ProviderResp) :
    ∀ (es : List UsageEvent) (k : Nat) (c : MeterEventCall),
      c ∈ (ingestGo meters custId respond k es).2 →
      ∃ e ∈ es, validateEventName meters e.meter = .ok e.meter ∧
        c = mkMeterEventCall custId e := by
  intro es
  induction es with
  | nil => intro k c hc; simp [ingestGo] at hc
  | cons e rest ih =>
    intro k c hc
    simp only [ingestGo, List.mem_append] at hc
    rcases hc with hc | hc
    · cases hv : validateEventName meters e.meter with
      | ok v =>
        rw [hv] at hc
        simp at hc
        have := validateEventName_ok hv
        subst this
        exact ⟨e, by simp, hv, hc⟩
      | error msg =>
        rw [hv] at hc
        simp at hc
    · obtain ⟨e2, he2, hok, hceq⟩ := ih (k + 1) c hc
      exact ⟨e2, by simp [he2], hok, hceq⟩

theorem ingestGo_calls_complete (meters : Option (List Meter)) (custId : String)
    (respond : Nat → ProviderResp) :
    ∀ (es : List UsageEvent) (k i : Nat) (e : UsageEvent),
      es[i]? = some e → validateEventName meters e.meter = .ok e.meter →
      mkMeterEventCall custId e ∈ (ingestGo meters custId respond k es).2 := by
  intro es
  induction es with
  | nil => intro k i e he; simp at he
  | cons e0 rest ih =>
    intro k i e he hv
    cases i with
    | zero =>
      simp at he
      subst he
      simp [ingestGo, hv]
    | succ i =>
      simp only [List.getElem?_cons_succ] at he
      have := ih (k + 1) i e he hv
      simp [ingestGo, this]

/-- C1: every ingestion batch returns exactly one result per input event, in
the same order — the result list has the input's length and the result at
every index carries the meter of the input event at that index, whatever mix
of provider successes and failures the batch encounters. -/
theorem ingest_results_one_per_event (meters : Option (List Meter))
    (u custId : String) (respond : Nat → ProviderResp)
    (events : List UsageEvent) :
    ∃ rs, (stripeIngestUsage meters (some u) custId respond events).response =
        .ok rs ∧
      rs.length = events.length ∧
      ∀ i : Nat, (rs[i]?).map UsageEventResult.meter =
        (events[i]?).map UsageEvent.meter := by
  refine ⟨(ingestGo meters custId respond 0 events).1, rfl, ?_, ?_⟩
  · exact ingestGo_fst_length meters custId respond events 0
  · intro i
    rw [ingestGo_fst_getElem?]
    cases h : events[i]? with
    | none => rfl
    | some e => simp [eventOutcome_meter]

/-- C2: each event's provider outcome is captured independently — changing
the provider's reaction to one event leaves every sibling's result unchanged,
a failing event's result is its meter, success `false`, and the provider's
message (or the generic one when the provider supplies none), and a
successful event's result omits the error field. -/
theorem ingest_per_event_independence (meters : Option (List Meter))
    (u custId : String) (respond respond' : Nat → ProviderResp)
    (events : List UsageEvent) (i : Nat)
    (hagree : ∀ k, k ≠ i → respond k = respond' k) :
    ∃ rs rs',
      (stripeIngestUsage meters (some u) custId respond events).response =
        .ok rs ∧
      (stripeIngestUsage meters (some u) custId respond' events).response =
        .ok rs' ∧
      (∀ j, j ≠ i → rs[j]? = rs'[j]?) ∧
      ∀ e, events[i]? = some e →
        validateEventName meters e.meter = .ok e.meter →
        (respond i = .ok →
          rs[i]? = some { meter := e.meter, success := true, error := none }) ∧
        ∀ m, respond i = .err m →
          rs[i]? =
            some ⟨e.meter, false, some (m.getD genericIngestError)⟩ := by
  refine ⟨(ingestGo meters custId respond 0 events).1,
    (ingestGo meters custId respond' 0 events).1, rfl, rfl, ?_, ?_⟩
  · intro j hj
    rw [ingestGo_fst_getElem?, ingestGo_fst_getElem?]
    cases h : events[j]? with
    | none => rfl
    | some e =>
      exact congrArg some (eventOutcome_congr (hagree (0 + j) (by omega)) e)
  · intro e he hv
    constructor
    · intro hr
      rw [ingestGo_fst_getElem?, he]
      simp [eventOutcome, hv, Nat.zero_add, hr]
    · intro m hr
      rw [ingestGo_fst_getElem?, he]
      simp [eventOutcome, hv, Nat.zero_add, hr]

/-- C3: ingestion without a valid session fails with `Unauthenticated`
(HTTP 401) and performs neither a provider call nor a database access. -/
theorem ingest_unauthenticated_before_io (meters : Option (List Meter))
    (custId : String) (respond : Nat → ProviderResp)
    (events : List UsageEvent) :
    (stripeIngestUsage meters none custId respond events).response =
      .error .unauthenticated ∧
    ApiError.status .unauthenticated = 401 ∧
    (stripeIngestUsage meters none custId respond events).calls = [] ∧
    (stripeIngestUsage meters none custId respond events).dbAccesses = 0 :=
  ⟨rfl, rfl, rfl, rfl⟩

/-- C4: an event whose meter is not a configured event name (in particular
when no meters are configured at all) yields a failed result carrying the
validation error for that event, and no call whose event name is that meter
ever reaches the provider. -/
theorem unknown_meter_never_sent (meters : Option (List Meter))
    (u custId : String) (respond : Nat → ProviderResp)
    (events : List UsageEvent) (i : Nat) (e : UsageEvent) (msg : String)
    (he : events[i]? = some e)
    (hv : validateEventName meters e.meter = .error msg) :
    ∃ rs, (stripeIngestUsage meters (some u) custId respond events).response =
        .ok rs ∧
      rs[i]? = some { meter := e.meter, success := false, error := some msg } ∧
      ∀ c ∈ (stripeIngestUsage meters (some u) custId respond events).calls,
        c.event_name ≠ e.meter := by
  refine ⟨(ingestGo meters custId respond 0 events).1, rfl, ?_, ?_⟩
  · rw [ingestGo_fst_getElem?, he]
    simp [eventOutcome, hv]
  · intro c hc hname
    obtain ⟨e2, _, hok, hceq⟩ :=
      ingestGo_calls_sound meters custId respond events 0 c hc
    have : c.event_name = e2.meter := by rw [hceq]; rfl
    rw [this] at hname
    rw [hname] at hok
    rw [hok] at hv
    cases hv

/-- C6 (amended): the provider call built for a valid event has the shape
`event_name`, `payload` with keys `stripe_customer_id` and `value`,
`timestamp`, `identifier` — the timestamp being the epoch-seconds conversion
of the event's ISO-8601 string when one is supplied (1749988800 for
"2025-06-15T12:00:00Z"), absent when none, and the identifier forwarded
verbatim. -/
theorem meter_event_call_shape (meters : Option (List Meter))
    (u custId : String) (respond : Nat → ProviderResp)
    (events : List UsageEvent) (i : Nat) (e : UsageEvent)
    (he : events[i]? = some e)
    (hv : validateEventName meters e.meter = .ok e.meter) :
    ∃ c, c ∈ (stripeIngestUsage meters (some u) custId respond events).calls ∧
      c.event_name = e.meter ∧
      c.payload = [("stripe_customer_id", custId),
        ("value", toString e.value)] ∧
      (∀ s, e.timestamp = some s → c.timestamp = isoToEpochSeconds s) ∧
      (e.timestamp = none → c.timestamp = none) ∧
      c.identifier = e.identifier ∧
      isoToEpochSeconds "2025-06-15T12:00:00Z" = some 1749988800 := by
  refine ⟨mkMeterEventCall custId e, ?_, rfl, rfl, ?_, ?_, rfl, by decide⟩
  · have := ingestGo_calls_complete meters custId respond events 0 i e he hv
    exact this
  · intro s hs
    simp [mkMeterEventCall, hs]
  · intro hs
    simp [mkMeterEventCall, hs]

/-- C6 counterexample: the call actually sent for the batch of the test
"should send a meter event for a user" keys its payload by
`stripe_customer_id`, not by `customer_id` as the claim states. -/
theorem payload_key_not_customer_id :
    (stripeIngestUsage (some [{ eventName := "stripe_meter_emails" }])
        (some "u") "cus_test_user" (fun _ => .ok)
        [{ meter := "stripe_meter_emails", value := 10 }]).calls.map
      (fun c => c.payload.map Prod.fst) = [["stripe_customer_id", "value"]] ∧
    ∀ c ∈ (stripeIngestUsage (some [{ eventName := "stripe_meter_emails" }])
        (some "u") "cus_test_user" (fun _ => .ok)
        [{ meter := "stripe_meter_emails", value := 10 }]).calls,
      "customer_id" ∉ c.payload.map Prod.fst := by decide

example :
    (stripeIngestUsage (some [{ eventName := "stripe_meter_emails" }])
      (some "u") "cus_test_user" (fun _ => .ok)
      [{ meter := "stripe_meter_emails", value := 10 }]).response =
    .ok [{ meter := "stripe_meter_emails", success := true }] := rfl

theorem meterListingCalls_fresh_append (listing : List (String × String))
    (m : List (String × String)) (t0 : Nat) :
    ∀ (ts rest : List Nat),
      (∀ t ∈ ts, t - t0 < METER_CACHE_TTL_MS) →
      meterListingCalls listing (some ⟨m, t0⟩) (ts ++ rest) =
        meterListingCalls listing (some ⟨m, t0⟩) rest := by
  intro ts
  induction ts with
  | nil => intro rest _; rfl
  | cons t ts ih =>
    intro rest h
    have ht : t - t0 < METER_CACHE_TTL_MS := h t (by simp)
    simp only [List.cons_append, meterListingCalls, meterIdResolverStep, ht,
      if_true]
    simpa using ih rest (fun t2 ht2 => h t2 (by simp [ht2]))

/-- C5: starting from an empty process-wide cache, any sequence of resolver
calls whose later calls fall within the fixed 5-minute TTL of the first
performs exactly one provider meter-listing call; one further call after TTL
expiry performs exactly one more; and a call that finds a live cache entry
returns its mapping without contacting the provider. -/
theorem meter_cache_single_listing_within_ttl
    (listing : List (String × String)) (t0 : Nat) (ts : List Nat) (t2 : Nat)
    (hwin : ∀ t ∈ ts, t0 ≤ t ∧ t - t0 < METER_CACHE_TTL_MS)
    (hexp : METER_CACHE_TTL_MS ≤ t2 - t0) :
    meterListingCalls listing none (t0 :: ts) = 1 ∧
    meterListingCalls listing none ((t0 :: ts) ++ [t2]) = 2 ∧
    ∀ now c, now - c.fetchedAt < METER_CACHE_TTL_MS →
      meterIdResolverStep listing now (some c) = (c.mapping, some c, false) := by
  have hin : ∀ t ∈ ts, t - t0 < METER_CACHE_TTL_MS :=
    fun t ht => (hwin t ht).2
  have hnot : ¬ (t2 - t0 < METER_CACHE_TTL_MS) := by omega
  refine ⟨?_, ?_, ?_⟩
  · have h := meterListingCalls_fresh_append listing listing t0 ts [] hin
    simp only [List.append_nil] at h
    simp [meterListingCalls, meterIdResolverStep, h]
  · have h := meterListingCalls_fresh_append listing listing t0 ts [t2] hin
    simp [meterListingCalls, meterIdResolverStep, h, hnot]
  · intro now c hc
    simp [meterIdResolverStep, hc]

/-- C5 witness: three calls at times 0, 1000, 2000 (all within the 5-minute
TTL of the first) trigger one listing; a fourth call at 300001 triggers a
second. -/
theorem meter_cache_single_listing_within_ttl_witness :
    meterListingCalls [("api_calls", "meter_abc")] none [0, 1000, 2000] = 1 ∧
    meterListingCalls [("api_calls", "meter_abc")] none
      [0, 1000, 2000, 300001] = 2 := by
  have h := meter_cache_single_listing_within_ttl
    [("api_calls", "meter_abc")] 0 [1000, 2000] 300001 (by decide) (by decide)
  exact ⟨h.1, h.2.1⟩

/-- C7: a usage query for a meter that local configuration knows but the
provider's live listing does not resolves to the distinct
`MeterNotRegistered` error, surfaced with HTTP status 400 — a client error
class (4xx), not a server fault. -/
theorem usage_query_meter_not_registered (cfg : List Meter) (u : String)
    (liveMeters : List (String × String)) (custId : String)
    (fetch : SummariesRequest → SummaryPage) (params : UsageQueryParams)
    (_hcfg : validateEventName (some cfg) params.meter = .ok params.meter)
    (hlive : liveMeters.lookup params.meter = none) :
    ∃ err, subscriptionUsage (some u) liveMeters custId fetch params =
        .error err ∧
      err = .meterNotRegistered ∧ err.status = 400 ∧ err.status / 100 = 4 := by
  refine ⟨.meterNotRegistered, ?_, rfl, rfl, rfl⟩
  simp [subscriptionUsage, hlive]

/-- C7 witness: querying `stripe_meter_emails` (configured locally) against
an empty live listing fails with `MeterNotRegistered`, status 400. -/
theorem usage_query_meter_not_registered_witness :
    ∃ err, subscriptionUsage (some "u") [] "cus_test_user"
        (fun _ => { data := [], has_more := false })
        { meter := "stripe_meter_emails" } = .error err ∧
      err = .meterNotRegistered ∧ err.status = 400 ∧ err.status / 100 = 4 :=
  usage_query_meter_not_registered [{ eventName := "stripe_meter_emails" }]
    "u" [] "cus_test_user" (fun _ => { data := [], has_more := false })
    { meter := "stripe_meter_emails" } rfl rfl

/-- C8: a successful usage query maps every raw provider summary to its
normalized form (renamed fields, `Date` values at a thousand times the epoch
seconds), copies the provider's page-continuation flag into `hasMore`, and,
whenever `hasMore` is true, sets `lastId` to the id of the last item of the
page. -/
theorem usage_summaries_normalized (u : String)
    (liveMeters : List (String × String)) (custId : String)
    (fetch : SummariesRequest → SummaryPage) (params : UsageQueryParams)
    (mid : String) (hmid : liveMeters.lookup params.meter = some mid) :
    ∃ pg, subscriptionUsage (some u) liveMeters custId fetch params = .ok pg ∧
      ∀ raw,
        raw = fetch ⟨mid, custId, params.limit, params.startingAfter, params.groupingWindow⟩ →
        pg.data = raw.data.map (fun r => ⟨r.id, r.aggregated_value, r.start_time * 1000, r.end_time * 1000⟩) ∧
        pg.hasMore = raw.has_more ∧
        (pg.hasMore = true → ∀ last, raw.data.getLast? = some last →
          pg.lastId = some last.id) := by
  refine ⟨formatUsagePage (fetch ⟨mid, custId, params.limit,
    params.startingAfter, params.groupingWindow⟩), ?_, ?_⟩
  · simp [subscriptionUsage, hmid]
  · intro raw hraw
    subst hraw
    refine ⟨rfl, rfl, ?_⟩
    intro hm last hlast
    simp only [formatUsagePage] at hm ⊢
    rw [hm, if_pos rfl, hlast]
    rfl

/-- C8 witness: the pagination page of the test "should support pagination
and grouping options" — one summary, `has_more: true` — normalizes to
`hasMore: true` with `lastId` the single item's id, and its `Date` fields are
the provider's epoch seconds times 1000. -/
theorem usage_summaries_normalized_witness :
    ∃ pg, subscriptionUsage (some "u")
        [("stripe_meter_emails", "meter_emails_id")] "cus_test_user"
        (fun _ => ⟨[⟨"summary_page2", 10, 100, 200⟩], true⟩)
        ⟨"stripe_meter_emails", some 10, some "summary_prev", some "day"⟩ =
        .ok pg ∧
      pg.hasMore = true ∧ pg.lastId = some "summary_page2" ∧
      pg.data = [⟨"summary_page2", 10, 100000, 200000⟩] := by
  obtain ⟨pg, hpg, hprops⟩ := usage_summaries_normalized "u"
    [("stripe_meter_emails", "meter_emails_id")] "cus_test_user"
    (fun _ => ⟨[⟨"summary_page2", 10, 100, 200⟩], true⟩)
    ⟨"stripe_meter_emails", some 10, some "summary_prev", some "day"⟩
    "meter_emails_id" rfl
  obtain ⟨hdata, hmore, hlast⟩ := hprops _ rfl
  refine ⟨pg, hpg, hmore, ?_, ?_⟩
  · exact hlast hmore _ rfl
  · rw [hdata]
    rfl

theorem firstPlanItem_none (plans : List Plan) :
    ∀ its : List SubscriptionItem,
      (∀ it ∈ its, findPlanForItem plans it = none) →
      firstPlanItem plans its = none := by
  intro its
  induction its with
  | nil => intro _; rfl
  | cons a rest ih =>
    intro h
    have ha : findPlanForItem plans a = none := h a (by simp)
    simp only [firstPlanItem, ha]
    exact ih (fun it hit => h it (by simp [hit]))

theorem firstPlanItem_first (plans : List Plan) :
    ∀ (its : List SubscriptionItem) (j : Nat) (it : SubscriptionItem)
      (p : Plan),
      its[j]? = some it → findPlanForItem plans it = some p →
      (∀ k it2, k < j → its[k]? = some it2 →
        findPlanForItem plans it2 = none) →
      firstPlanItem plans its = some { item := it, plan := some p } := by
  intro its
  induction its with
  | nil => intro j it p hj; simp at hj
  | cons a rest ih =>
    intro j it p hj hp hmin
    cases j with
    | zero =>
      simp at hj
      subst hj
      simp [firstPlanItem, hp]
    | succ j =>
      have ha : findPlanForItem plans a = none :=
        hmin 0 a (Nat.succ_pos j) (by simp)
      simp only [firstPlanItem, ha]
      simp only [List.getElem?_cons_succ] at hj
      exact ih j it p hj hp
        (fun k it2 hk hik => hmin (k + 1) it2 (by omega) (by simpa using hik))

/-- C9: a single subscription line item is matched against the catalog by
price identifier first, then lookup key, and is always returned — with the
matched plan, or with no plan when nothing in the catalog matches; with two
or more line items, the items are scanned in list order, the first item
matching a configured plan is returned with that plan, and nothing is
returned when no item matches any plan. -/
theorem plan_item_resolution (plans : List Plan) :
    (∀ it : SubscriptionItem,
      ∃ r, resolvePlanItem plans [it] = some r ∧ r.item = it ∧
        r.plan = (plans.find? (fun p => p.priceId == some it.price.id)).orElse
          (fun _ => it.price.lookup_key.bind
            (fun lk => plans.find? (fun p => p.lookupKey == some lk)))) ∧
    ∀ items : List SubscriptionItem, 2 ≤ items.length →
      ((∀ it ∈ items, findPlanForItem plans it = none) →
        resolvePlanItem plans items = none) ∧
      ∀ (j : Nat) (it : SubscriptionItem) (p : Plan),
        items[j]? = some it → findPlanForItem plans it = some p →
        (∀ (k : Nat) (it2 : SubscriptionItem), k < j → items[k]? = some it2 →
          findPlanForItem plans it2 = none) →
        resolvePlanItem plans items = some { item := it, plan := some p } := by
  constructor
  · intro it
    refine ⟨{ item := it, plan := findPlanForItem plans it }, rfl, rfl, ?_⟩
    show findPlanForItem plans it = _
    cases hf : plans.find? (fun p => p.priceId == some it.price.id) with
    | some p => simp [findPlanForItem, hf, Option.orElse]
    | none =>
      cases hlk : it.price.lookup_key with
      | some lk => simp [findPlanForItem, hf, hlk, Option.orElse]
      | none => simp [findPlanForItem, hf, hlk, Option.orElse]
  · intro items h2
    obtain ⟨a, b, rest, hitems⟩ : ∃ a b rest, items = a :: b :: rest := by
      cases items with
      | nil => simp at h2
      | cons a t =>
        cases t with
        | nil => simp at h2
        | cons b rest => exact ⟨a, b, rest, rfl⟩
    subst hitems
    constructor
    · intro hall
      exact firstPlanItem_none plans (a :: b :: rest) hall
    · intro j it p hj hp hmin
      exact firstPlanItem_first plans (a :: b :: rest) j it p hj hp hmin

/-- C10: resolving the plan item of an empty subscription-item list returns
nothing — no item and no plan are fabricated. -/
theorem resolve_plan_item_empty (plans : List Plan) :
    resolvePlanItem plans [] = none := rfl

/-- The plan catalog of the `resolvePlanItem` tests. -/
def plansTest : List Plan :=
  [{ name := "starter", priceId := some "price_starter" },
   { name := "premium", priceId := some "price_premium" }]

/-- C9 witness: on the catalog of the tests, the multi-item scan returns the
first matching item (the second of the list), returns nothing when no item
matches, and a single unmatched item is returned without a plan. -/
theorem plan_item_resolution_witness :
    resolvePlanItem plansTest
        [⟨⟨"price_seat_addon", none⟩⟩, ⟨⟨"price_starter", none⟩⟩] =
      some ⟨⟨⟨"price_starter", none⟩⟩,
        some { name := "starter", priceId := some "price_starter" }⟩ ∧
    resolvePlanItem plansTest
        [⟨⟨"price_unknown_1", none⟩⟩, ⟨⟨"price_unknown_2", none⟩⟩] = none ∧
    resolvePlanItem plansTest [⟨⟨"price_unknown", none⟩⟩] =
      some ⟨⟨⟨"price_unknown", none⟩⟩, none⟩ := by
  refine ⟨?_, ?_, ?_⟩
  · refine (plan_item_resolution plansTest).2 _ (by decide) |>.2 1
      ⟨⟨"price_starter", none⟩⟩
      { name := "starter", priceId := some "price_starter" } rfl (by decide) ?_
    intro k it2 hk hik
    have hk0 : k = 0 := by omega
    subst hk0
    simp only [List.getElem?_cons_zero, Option.some.injEq] at hik
    subst hik
    decide
  · exact (plan_item_resolution plansTest).2 _ (by decide) |>.1 (by decide)
  · obtain ⟨r, hr, hit, hp⟩ :=
      (plan_item_resolution plansTest).1 ⟨⟨"price_unknown", none⟩⟩
    obtain ⟨ritem, rplan⟩ := r
    simp only at hit hp
    subst hit
    rw [hr, hp]
    decide

/-- The meter configuration of the metered-billing tests. -/
def metersTest : List Meter :=
  [{ eventName := "stripe_meter_emails" }, { eventName := "stripe_meter_api" }]

/-- Provider behaviour of the batch test: the second event's call fails with
a rate-limit message, every other call succeeds. -/
def respondMixed : Nat → ProviderResp :=
  fun k => if k = 1 then .err (some "Stripe rate limit exceeded") else .ok

/-- Provider behaviour where every call succeeds. -/
def respondAllOk : Nat → ProviderResp := fun _ => .ok

/-- The two-event batch of the test "should report per-event success and
failure in batch". -/
def eventsTest : List UsageEvent :=
  [{ meter := "stripe_meter_emails", value := 1 },
   { meter := "stripe_meter_api", value := 1 }]

/-- C2 witness: on the batch of the tests, where only the second event's
provider call fails, the first event's result agrees with the all-success
run, and the second event's result carries the rate-limit message. -/
theorem ingest_per_event_independence_witness :
    ∃ rs rs',
      (stripeIngestUsage (some metersTest) (some "u") "cus_test_user"
        respondMixed eventsTest).response = .ok rs ∧
      (stripeIngestUsage (some metersTest) (some "u") "cus_test_user"
        respondAllOk eventsTest).response = .ok rs' ∧
      (∀ j, j ≠ 1 → rs[j]? = rs'[j]?) ∧
      ∀ e, eventsTest[1]? = some e →
        validateEventName (some metersTest) e.meter = .ok e.meter →
        (respondMixed 1 = .ok →
          rs[1]? = some { meter := e.meter, success := true, error := none }) ∧
        ∀ m, respondMixed 1 = .err m →
          rs[1]? =
            some ⟨e.meter, false, some (m.getD genericIngestError)⟩ :=
  ingest_per_event_independence (some metersTest) "u" "cus_test_user"
    respondMixed respondAllOk eventsTest 1
    (fun k hk => by simp [respondMixed, respondAllOk, hk])

/-- C4 witness: one event naming the unconfigured meter "nonexistent" yields
a failed result with the validation message and no provider call names that
meter. -/
theorem unknown_meter_never_sent_witness :
    ∃ rs, (stripeIngestUsage (some metersTest) (some "u") "cus_test_user"
        respondAllOk [{ meter := "nonexistent", value := 1 }]).response =
        .ok rs ∧
      rs[0]? = some ⟨"nonexistent", false,
        some "Meter nonexistent is not a configured meter name"⟩ ∧
      ∀ c ∈ (stripeIngestUsage (some metersTest) (some "u") "cus_test_user"
        respondAllOk [{ meter := "nonexistent", value := 1 }]).calls,
        c.event_name ≠ "nonexistent" :=
  unknown_meter_never_sent (some metersTest) "u" "cus_test_user" respondAllOk
    [{ meter := "nonexistent", value := 1 }] 0
    { meter := "nonexistent", value := 1 }
    "Meter nonexistent is not a configured meter name" rfl rfl

/-- The event of the test "should forward timestamp and identifier to
Stripe". -/
def tsEvent : UsageEvent :=
  { meter := "stripe_meter_emails", value := 5,
    timestamp := some "2025-06-15T12:00:00Z",
    identifier := some "idempotency-abc123" }

/-- C6 witness: the call for the timestamped event of the tests carries the
payload keyed by `stripe_customer_id`, the epoch-seconds conversion
1749988800 of its ISO-8601 timestamp, and its idempotency identifier
verbatim. -/
theorem meter_event_call_shape_witness :
    ∃ c, c ∈ (stripeIngestUsage (some metersTest) (some "u") "cus_test_user"
        respondAllOk [tsEvent]).calls ∧
      c.event_name = tsEvent.meter ∧
      c.payload = [("stripe_customer_id", "cus_test_user"),
        ("value", toString tsEvent.value)] ∧
      (∀ s, tsEvent.timestamp = some s → c.timestamp = isoToEpochSeconds s) ∧
      (tsEvent.timestamp = none → c.timestamp = none) ∧
      c.identifier = tsEvent.identifier ∧
      isoToEpochSeconds "2025-06-15T12:00:00Z" = some 1749988800 :=
  meter_event_call_shape (some metersTest) "u" "cus_test_user" respondAllOk
    [tsEvent] 0 tsEvent rfl rfl
